import Mathlib

/-!
# Verification of the git-monitor repository status classifier

This file gives a shallow embedding of the core logic of the git-monitor
server (`server.ts`, current revision): the repository status classifier
`getRepoStatus`, the command runner `execAsync`, the per-project metadata
store (git-dir) resolution, and the per-request classification pass of the
HTTP request listener.

The classifier is straight-line code issuing up to five external commands
(`ls`, `git log -1`, `git status --porcelain=v1`, and two `git rev-list
--count` calls) and branching on their captured stdout/stderr text. We
embed it as a pure function over a `ProbeEnv` record holding the outcome
of each of the five possible commands, and instrument it with the trace of
commands actually issued before the early return taken.
-/

namespace GitMonitor

/-- Outcome of one `execAsync` call as the TypeScript code sees it:
captured stdout, captured stderr, and the optional error message of the
`child_process.exec` callback (present on nonzero exit or spawn failure). -/
structure ExecResult where
  stdout : String
  stderr : String
  error : Option String
  deriving Repr, DecidableEq

/-- The five external commands `getRepoStatus` can issue, in the order the
code issues them. -/
inductive Probe where
  | existsCheck   -- `ls "<path>"`
  | logCheck      -- `git ... log -1`
  | statusCheck   -- `git ... status --porcelain=v1`
  | aheadCheck    -- `git ... rev-list --count @{u}..HEAD`
  | behindCheck   -- `git ... rev-list --count HEAD..@{u}`
  deriving Repr, DecidableEq

/-- Outcomes of the five external commands for one classification call.
`getRepoStatus` is deterministic in these. -/
structure ProbeEnv where
  existsCheck : ExecResult
  logCheck : ExecResult
  statusCheck : ExecResult
  aheadCheck : ExecResult
  behindCheck : ExecResult
  deriving Repr, DecidableEq

/-- The closed status enumeration of `server.ts` (enum `RepoStatus`). -/
inductive RepoStatus where
  | PathNotFound
  | NotAGitRepo
  | NoCommitsYet
  | UntrackedFiles
  | UncommittedChanges
  | UnpushedChanges
  | UnpulledChanges
  | Okay
  | UnknownError
  deriving Repr, DecidableEq

/-- JavaScript `s.indexOf(sub) >= 0`: substring containment test. -/
def strContains (s sub : String) : Bool :=
  decide (sub.data <:+: s.data)

/-- JavaScript `parseInt` restricted to what the classifier feeds it
(`git rev-list --count` stdout): skip leading whitespace, optional sign,
then a run of decimal digits; `none` models `NaN` (no digits found).
Trailing junk after the digits is ignored, as in JavaScript. -/
def jsParseInt (s : String) : Option Int :=
  let cs := s.data.dropWhile Char.isWhitespace
  let signAndRest : Int × List Char :=
    match cs with
    | '-' :: rest => (-1, rest)
    | '+' :: rest => (1, rest)
    | _ => (1, cs)
  let ds := signAndRest.2.takeWhile Char.isDigit
  if ds = [] then none
  else some (signAndRest.1 * (ds.foldl (fun acc c => acc * 10 + (c.toNat - 48)) 0 : Nat))

/-- JavaScript `parseInt(x) > 0`: `NaN > 0` is `false`, so `none` yields
`false`. -/
def jsGtZero (r : Option Int) : Bool :=
  match r with
  | some n => decide (n > 0)
  | none => false

/-- JavaScript `s.split("\n")` on the character list: n separators give
n + 1 pieces, so the empty string gives one empty piece. -/
def splitOnNewline : List Char → List (List Char)
  | [] => [[]]
  | c :: rest =>
    if c = '\n' then [] :: splitOnNewline rest
    else
      match splitOnNewline rest with
      | [] => [[c]]
      | l :: ls => (c :: l) :: ls

/-- JavaScript `s.trim()` on the character list: strip whitespace from both
ends. -/
def trimChars (cs : List Char) : List Char :=
  ((cs.dropWhile Char.isWhitespace).reverse.dropWhile Char.isWhitespace).reverse

/-- The porcelain-output parser of `getRepoStatus`:
`stdout.trim().split("\n").map(line => line.substr(0, 2)).filter(s => s !== "")`. -/
def parseStatuses (stdout : String) : List String :=
  (((splitOnNewline (trimChars stdout.data)).map
      (fun line => String.mk (line.take 2))).filter (fun s => s != ""))

/-- Function `getRepoStatus(projectPath, gitDir)` from `server.ts`, embedded over the
outcomes of its external commands, together with the list of commands it
issues before the early return taken. Branch order and marker strings are
verbatim from the source:
existence marker, then `log -1` markers (`not a git repository`,
`does not have any commits`, `fatal`), then `status --porcelain=v1`
(`fatal`, then `??`, then any remaining code), then the two counts. -/
def getRepoStatusTrace (env : ProbeEnv) : RepoStatus × List Probe :=
  if strContains env.existsCheck.stderr "No such file or directory" then
    (RepoStatus.PathNotFound, [Probe.existsCheck])
  else if strContains env.logCheck.stderr "not a git repository" then
    (RepoStatus.NotAGitRepo, [Probe.existsCheck, Probe.logCheck])
  else if strContains env.logCheck.stderr "does not have any commits" then
    (RepoStatus.NoCommitsYet, [Probe.existsCheck, Probe.logCheck])
  else if strContains env.logCheck.stderr "fatal" then
    (RepoStatus.UnknownError, [Probe.existsCheck, Probe.logCheck])
  else if strContains env.statusCheck.stderr "fatal" then
    (RepoStatus.UnknownError, [Probe.existsCheck, Probe.logCheck, Probe.statusCheck])
  else if (parseStatuses env.statusCheck.stdout).contains "??" then
    (RepoStatus.UntrackedFiles, [Probe.existsCheck, Probe.logCheck, Probe.statusCheck])
  else if (parseStatuses env.statusCheck.stdout).length > 0 then
    (RepoStatus.UncommittedChanges, [Probe.existsCheck, Probe.logCheck, Probe.statusCheck])
  else if jsGtZero (jsParseInt env.aheadCheck.stdout) then
    (RepoStatus.UnpushedChanges,
      [Probe.existsCheck, Probe.logCheck, Probe.statusCheck, Probe.aheadCheck])
  else if jsGtZero (jsParseInt env.behindCheck.stdout) then
    (RepoStatus.UnpulledChanges,
      [Probe.existsCheck, Probe.logCheck, Probe.statusCheck, Probe.aheadCheck,
        Probe.behindCheck])
  else
    (RepoStatus.Okay,
      [Probe.existsCheck, Probe.logCheck, Probe.statusCheck, Probe.aheadCheck,
        Probe.behindCheck])

/-- The status `getRepoStatus` returns. -/
def getRepoStatus (env : ProbeEnv) : RepoStatus :=
  (getRepoStatusTrace env).1

/-- The external commands `getRepoStatus` issues, in order. -/
def getRepoTrace (env : ProbeEnv) : List Probe :=
  (getRepoStatusTrace env).2

/-- Spec-side definition (from the spec's words, for the refinement claim):
whether a status is "applicable" to a probe environment, read off the
spec's description of each check in isolation. -/
def applicable (env : ProbeEnv) (s : RepoStatus) : Bool :=
  match s with
  | RepoStatus.PathNotFound => strContains env.existsCheck.stderr "No such file or directory"
  | RepoStatus.NotAGitRepo => strContains env.logCheck.stderr "not a git repository"
  | RepoStatus.NoCommitsYet => strContains env.logCheck.stderr "does not have any commits"
  | RepoStatus.UnknownError =>
      strContains env.logCheck.stderr "fatal" || strContains env.statusCheck.stderr "fatal"
  | RepoStatus.UntrackedFiles => (parseStatuses env.statusCheck.stdout).contains "??"
  | RepoStatus.UncommittedChanges => decide ((parseStatuses env.statusCheck.stdout).length > 0)
  | RepoStatus.UnpushedChanges => jsGtZero (jsParseInt env.aheadCheck.stdout)
  | RepoStatus.UnpulledChanges => jsGtZero (jsParseInt env.behindCheck.stdout)
  | RepoStatus.Okay => true

/-- Spec-side definition: the severity order of the spec, most severe
first. -/
def severityOrder : List RepoStatus :=
  [RepoStatus.PathNotFound, RepoStatus.NotAGitRepo, RepoStatus.NoCommitsYet,
    RepoStatus.UnknownError, RepoStatus.UntrackedFiles, RepoStatus.UncommittedChanges,
    RepoStatus.UnpushedChanges, RepoStatus.UnpulledChanges, RepoStatus.Okay]

/-- Spec-side definition: the first applicable status in the severity
order, if any. -/
def firstApplicableStatus (env : ProbeEnv) : Option RepoStatus :=
  severityOrder.find? (applicable env)

/-- C1: for every combination of probe outcomes the classifier returns
exactly one status, namely the first applicable status in the severity
order PathNotFound, NotAGitRepo, NoCommitsYet, UnknownError,
UntrackedFiles, UncommittedChanges, UnpushedChanges, UnpulledChanges,
Okay; in particular a missing working path always yields PathNotFound and
a later check never overwrites an earlier, more severe finding. -/
theorem getRepoStatus_eq_firstApplicable (env : ProbeEnv) :
    firstApplicableStatus env = some (getRepoStatus env) := by
  unfold firstApplicableStatus severityOrder getRepoStatus getRepoStatusTrace
  split_ifs with h1 h2 h3 h4 h5 h6 h7 h8 h9 <;>
    simp_all [List.find?, applicable]

/-- What the `child_process.exec` callback delivers: an optional `Error`
object (nonzero exit, missing executable, spawn failure) plus captured
stdout and stderr. -/
structure ExecError where
  message : String
  deriving Repr, DecidableEq

/-- The raw outcome `exec` reports to its callback. -/
structure RawExecOutcome where
  error : Option ExecError
  stdout : String
  stderr : String
  deriving Repr, DecidableEq

/-- A JavaScript promise settles either by resolving with a value or by
rejecting with an error. -/
inductive PromiseOutcome (α : Type) where
  | resolved : α → PromiseOutcome α
  | rejected : String → PromiseOutcome α
  deriving Repr, DecidableEq

/-- Function `execAsync` from `server.ts`: wraps `exec` in a promise whose executor
calls `resolve({ stdout, stderr, error: error?.message })` unconditionally;
`reject` is never invoked. -/
def execAsync (raw : RawExecOutcome) : PromiseOutcome ExecResult :=
  PromiseOutcome.resolved
    { stdout := raw.stdout, stderr := raw.stderr,
      error := Option.map ExecError.message raw.error }

/-- A configured project (`IProject` of `server.ts`): readonly `name`,
`path`, optional `gitDir`, plus the `repoStatus` field the request
listener fills in per pass. -/
structure IProject where
  name : String
  path : String
  gitDir : Option String
  repoStatus : Option RepoStatus
  deriving Repr, DecidableEq

/-- A configured group (`IGroup` of `server.ts`): a title and its
projects. -/
structure IGroup where
  title : String
  projects : List IProject
  deriving Repr, DecidableEq

/-- The git-dir resolution of the request listener:
`project.gitDir || `${project.path}/.git``. JavaScript `||` falls through
on every falsy value, so an absent gitDir and an empty-string gitDir both
yield the default `path + "/.git"`. -/
def resolveGitDir (p : IProject) : String :=
  match p.gitDir with
  | some g => if g = "" then p.path ++ "/.git" else g
  | none => p.path ++ "/.git"

/-- The per-project `try`/`catch` of the request listener: a normal result
is recorded as-is, a thrown error is reduced to `UnknownError` for that
project alone. -/
def recoveredStatus (r : Except String RepoStatus) : RepoStatus :=
  match r with
  | Except.ok s => s
  | Except.error _ => RepoStatus.UnknownError

/-- One project's classification inside the request listener's loop:
`try { project.repoStatus = await getRepoStatus(...) } catch { project.repoStatus = UnknownError }`.
The classification outcome (normal status or thrown exception) is
abstracted as an oracle, since it depends on the external commands. -/
def classifyProject (oracle : IProject → Except String RepoStatus) (p : IProject) :
    IProject :=
  { p with repoStatus := some (recoveredStatus (oracle p)) }

/-- The request listener's classification pass over all groups and their
projects. -/
def runClassificationPass (oracle : IProject → Except String RepoStatus)
    (groups : List IGroup) : List IGroup :=
  groups.map (fun g => { g with projects := g.projects.map (classifyProject oracle) })

/-! ## Concrete probe environments used by witnesses -/

/-- An external command outcome with empty stderr and no error. -/
def okExec (out : String) : ExecResult :=
  { stdout := out, stderr := "", error := none }

/-- A clean repository in sync with its upstream. -/
def cleanEnv : ProbeEnv :=
  { existsCheck := okExec "README.md", logCheck := okExec "commit 1234",
    statusCheck := okExec "", aheadCheck := okExec "0\n", behindCheck := okExec "0\n" }

/-- A directory that is not a git repository. -/
def notRepoEnv : ProbeEnv :=
  { existsCheck := okExec "notes.txt",
    logCheck :=
      { stdout := "", stderr := "fatal: not a git repository", error := some "exit 128" },
    statusCheck :=
      { stdout := "", stderr := "fatal: not a git repository", error := some "exit 128" },
    aheadCheck := okExec "", behindCheck := okExec "" }

/-- One untracked file plus one modified tracked file. -/
def untrackedEnv : ProbeEnv :=
  { existsCheck := okExec "a.txt", logCheck := okExec "commit 1234",
    statusCheck := okExec "?? new.txt\n M old.txt",
    aheadCheck := okExec "0\n", behindCheck := okExec "0\n" }

/-- Exactly one modified tracked file, nothing untracked. -/
def modifiedEnv : ProbeEnv :=
  { existsCheck := okExec "a.txt", logCheck := okExec "commit 1234",
    statusCheck := okExec " M old.txt",
    aheadCheck := okExec "0\n", behindCheck := okExec "0\n" }

/-- A clean repository with no upstream configured: both rev-list commands
fail, their stdout is empty and does not parse as an integer. -/
def noUpstreamEnv : ProbeEnv :=
  { existsCheck := okExec "a.txt", logCheck := okExec "commit 1234",
    statusCheck := okExec "",
    aheadCheck :=
      { stdout := "", stderr := "fatal: no upstream configured", error := some "exit 128" },
    behindCheck :=
      { stdout := "", stderr := "fatal: no upstream configured", error := some "exit 128" } }

/-- An empty repository (no commits) whose working tree holds an untracked
file and a modified file. -/
def emptyRepoDirtyEnv : ProbeEnv :=
  { existsCheck := okExec "new.txt",
    logCheck :=
      { stdout := "",
        stderr := "fatal: your current branch does not have any commits yet",
        error := some "exit 128" },
    statusCheck := okExec "?? new.txt\n M other.txt",
    aheadCheck := okExec "", behindCheck := okExec "" }

/-- A working path that does not exist: the listing command reports the
missing-path marker. -/
def missingPathEnv : ProbeEnv :=
  { existsCheck :=
      { stdout := "", stderr := "ls: /tmp/missing: No such file or directory",
        error := some "exit 2" },
    logCheck := okExec "", statusCheck := okExec "",
    aheadCheck := okExec "", behindCheck := okExec "" }

/-- A working path the process may not read: the listing command fails with
a different error text, which is not the missing-path marker. -/
def permissionDeniedEnv : ProbeEnv :=
  { existsCheck :=
      { stdout := "", stderr := "ls: /secret: Permission denied", error := some "exit 2" },
    logCheck := okExec "commit 1234", statusCheck := okExec "",
    aheadCheck := okExec "0\n", behindCheck := okExec "0\n" }

/-! ## Concrete projects, groups and oracles used by witnesses -/

/-- A project whose classification succeeds and is clean. -/
def demoGood : IProject :=
  { name := "good", path := "/projects/good", gitDir := none, repoStatus := none }

/-- A project pointing at a non-repository directory. -/
def demoBad : IProject :=
  { name := "bad", path := "/projects/bad", gitDir := none, repoStatus := none }

/-- A project whose classification throws. -/
def demoCrash : IProject :=
  { name := "crash", path := "/projects/crash", gitDir := none, repoStatus := none }

/-- One group holding the three demo projects. -/
def demoGroups : List IGroup :=
  [{ title := "Projects", projects := [demoGood, demoBad, demoCrash] }]

/-- A classification oracle for the demo projects: the crash project throws,
the good project classifies over `cleanEnv`, every other project over
`notRepoEnv`. -/
def demoOracle (p : IProject) : Except String RepoStatus :=
  if p.name = "crash" then Except.error "spawn failure"
  else Except.ok (getRepoStatus (if p.name = "good" then cleanEnv else notRepoEnv))

/-- A project whose configured gitDir override is the empty string. -/
def emptyOverrideProject : IProject :=
  { name := "demo", path := "/tmp/demo", gitDir := some "", repoStatus := none }

/-- A project with a non-empty gitDir override. -/
def yadmProject : IProject :=
  { name := "YADM", path := "/projects/yadm", gitDir := some "/projects/yadm-git",
    repoStatus := none }

/-- A project with no gitDir override. -/
def plainProject : IProject :=
  { name := "plain", path := "/projects/plain", gitDir := none, repoStatus := none }

/-! ## Claim theorems C2 to C10 -/

/-- C2: with the earlier probes silent, the working-tree status probe's
stdout is parsed into two-character codes with blank lines discarded; any
"??" code yields UntrackedFiles, otherwise a non-empty code sequence —
including a single modified tracked file — yields UncommittedChanges. -/
theorem statusProbe_untracked_and_uncommitted (env : ProbeEnv)
    (h1 : strContains env.existsCheck.stderr "No such file or directory" = false)
    (h2 : strContains env.logCheck.stderr "not a git repository" = false)
    (h3 : strContains env.logCheck.stderr "does not have any commits" = false)
    (h4 : strContains env.logCheck.stderr "fatal" = false)
    (h5 : strContains env.statusCheck.stderr "fatal" = false) :
    ((parseStatuses env.statusCheck.stdout).contains "??" = true →
      getRepoStatus env = RepoStatus.UntrackedFiles)
    ∧ ((parseStatuses env.statusCheck.stdout).contains "??" = false →
      parseStatuses env.statusCheck.stdout ≠ [] →
      getRepoStatus env = RepoStatus.UncommittedChanges) := by
  unfold getRepoStatus getRepoStatusTrace
  constructor
  · intro hc
    have hm : "??" ∈ parseStatuses env.statusCheck.stdout := by simpa using hc
    simp [h1, h2, h3, h4, h5, hm]
  · intro hc hne
    have hm : "??" ∉ parseStatuses env.statusCheck.stdout := by simpa using hc
    have hl : 0 < (parseStatuses env.statusCheck.stdout).length :=
      List.length_pos.mpr hne
    simp [h1, h2, h3, h4, h5, hm, hl]

/-- Witness for C2: one untracked plus one modified file yields
UntrackedFiles; exactly one modified tracked file yields
UncommittedChanges. -/
theorem statusProbe_untracked_and_uncommitted_witness :
    getRepoStatus untrackedEnv = RepoStatus.UntrackedFiles
    ∧ getRepoStatus modifiedEnv = RepoStatus.UncommittedChanges :=
  ⟨(statusProbe_untracked_and_uncommitted untrackedEnv (by decide) (by decide) (by decide)
      (by decide) (by decide)).1 (by decide),
    (statusProbe_untracked_and_uncommitted modifiedEnv (by decide) (by decide) (by decide)
      (by decide) (by decide)).2 (by decide) (by decide)⟩

/-- C3: with the earlier probes silent and a clean working tree, an
ahead or behind count whose stdout does not parse as an integer is treated
as zero for that direction: the classifier does not return
UnpushedChanges (resp. UnpulledChanges) for it, no parse failure
propagates, and when both counts are unparseable the repository
classifies as Okay. -/
theorem unparseableCount_treated_as_zero (env : ProbeEnv)
    (h1 : strContains env.existsCheck.stderr "No such file or directory" = false)
    (h2 : strContains env.logCheck.stderr "not a git repository" = false)
    (h3 : strContains env.logCheck.stderr "does not have any commits" = false)
    (h4 : strContains env.logCheck.stderr "fatal" = false)
    (h5 : strContains env.statusCheck.stderr "fatal" = false)
    (h6 : parseStatuses env.statusCheck.stdout = []) :
    (jsParseInt env.aheadCheck.stdout = none →
      getRepoStatus env ≠ RepoStatus.UnpushedChanges)
    ∧ (jsParseInt env.behindCheck.stdout = none →
      getRepoStatus env ≠ RepoStatus.UnpulledChanges)
    ∧ (jsParseInt env.aheadCheck.stdout = none → jsParseInt env.behindCheck.stdout = none →
      getRepoStatus env = RepoStatus.Okay) := by
  unfold getRepoStatus getRepoStatusTrace
  refine ⟨?_, ?_, ?_⟩
  · intro ha
    cases hb : jsGtZero (jsParseInt env.behindCheck.stdout) <;>
      simp [h1, h2, h3, h4, h5, h6, ha, hb, jsGtZero]
  · intro hb
    cases ha : jsGtZero (jsParseInt env.aheadCheck.stdout) <;>
      simp [h1, h2, h3, h4, h5, h6, ha, hb, jsGtZero]
  · intro ha hb
    simp [h1, h2, h3, h4, h5, h6, ha, hb, jsGtZero]

/-- Witness for C3: a clean repository with no upstream (both rev-list
commands fail with empty stdout) classifies as Okay. -/
theorem unparseableCount_treated_as_zero_witness :
    getRepoStatus noUpstreamEnv = RepoStatus.Okay :=
  (unparseableCount_treated_as_zero noUpstreamEnv (by decide) (by decide) (by decide)
      (by decide) (by decide) (by decide)).2.2 (by decide) (by decide)

/-- C4: the classification pass records, for every project of every group,
exactly the status of that project's own classification — a thrown
classification resolves to UnknownError for that project alone — and on
the demo configuration (one clean project, one non-repository project,
one throwing project) the aggregated result contains Okay, NotAGitRepo
and UnknownError side by side. -/
theorem classificationPass_isolates_failures
    (oracle : IProject → Except String RepoStatus) (groups : List IGroup) :
    ((runClassificationPass oracle groups).map
        (fun g => g.projects.map (fun p => p.repoStatus))
      = groups.map (fun g => g.projects.map (fun p => some (recoveredStatus (oracle p)))))
    ∧ (runClassificationPass demoOracle demoGroups).map
        (fun g => g.projects.map (fun p => p.repoStatus))
      = [[some RepoStatus.Okay, some RepoStatus.NotAGitRepo,
          some RepoStatus.UnknownError]] := by
  constructor
  · simp [runClassificationPass, classifyProject, List.map_map, Function.comp]
  · rfl

/-- C5: when the history probe reports the no-commits marker (and neither
the missing-path nor the not-a-repository marker fired), the classifier
returns NoCommitsYet and the working-tree status probe is never issued,
so the result is NoCommitsYet whatever the working tree contains. -/
theorem noCommitsYet_short_circuits (env : ProbeEnv)
    (h1 : strContains env.existsCheck.stderr "No such file or directory" = false)
    (h2 : strContains env.logCheck.stderr "not a git repository" = false)
    (h3 : strContains env.logCheck.stderr "does not have any commits" = true) :
    getRepoStatus env = RepoStatus.NoCommitsYet
    ∧ Probe.statusCheck ∉ getRepoTrace env := by
  unfold getRepoStatus getRepoTrace getRepoStatusTrace
  simp [h1, h2, h3]

/-- Witness for C5: an empty repository whose working tree holds an
untracked and a modified file still classifies as NoCommitsYet, and the
status probe is not in the command trace. -/
theorem noCommitsYet_short_circuits_witness :
    getRepoStatus emptyRepoDirtyEnv = RepoStatus.NoCommitsYet
    ∧ Probe.statusCheck ∉ getRepoTrace emptyRepoDirtyEnv :=
  noCommitsYet_short_circuits emptyRepoDirtyEnv (by decide) (by decide) (by decide)

/-- C6: the command runner settles every call by resolving with a data
record — stdout, stderr, and the optional error message — so a nonzero
exit or missing executable is returned as data (the promise is never
rejected, and no exception reaches the caller). -/
theorem execAsync_never_rejects (raw : RawExecOutcome) :
    execAsync raw = PromiseOutcome.resolved
      { stdout := raw.stdout, stderr := raw.stderr,
        error := Option.map ExecError.message raw.error } := rfl

/-- C7: in one classification call every external command appears at most
once in the issued-command trace (the classifier never re-queries a
probe), and at most 6 commands are issued in total. -/
theorem classifier_command_budget (env : ProbeEnv) :
    (getRepoTrace env).Nodup ∧ (getRepoTrace env).length ≤ 6 := by
  unfold getRepoTrace getRepoStatusTrace
  split_ifs <;> exact ⟨by decide, by decide⟩

/-- Counterexample for C8: a project whose configured gitDir override is
the empty string is "set", yet the resolver does not use it verbatim — it
falls back to the default path + "/.git" because JavaScript `||` treats
the empty string as falsy. -/
theorem resolveGitDir_empty_override_counterexample :
    emptyOverrideProject.gitDir = some ""
    ∧ resolveGitDir emptyOverrideProject = "/tmp/demo/.git"
    ∧ resolveGitDir emptyOverrideProject ≠ "" := by
  refine ⟨rfl, rfl, ?_⟩
  decide

/-- C8 (amended): the resolver yields the configured override verbatim
when it is set to a non-empty string; when the override is absent or the
empty string it yields the working path with "/.git" appended; resolution
is a pure data transformation. -/
theorem resolveGitDir_amended (p : IProject) (g : String) :
    (p.gitDir = some g → g ≠ "" → resolveGitDir p = g)
    ∧ (p.gitDir = none → resolveGitDir p = p.path ++ "/.git")
    ∧ (p.gitDir = some "" → resolveGitDir p = p.path ++ "/.git") := by
  refine ⟨fun hg hne => ?_, fun hn => ?_, fun he => ?_⟩ <;>
    simp [resolveGitDir, *]

/-- Witness for C8 (amended): a non-empty override is used verbatim and an
absent override falls back to path + "/.git". -/
theorem resolveGitDir_amended_witness :
    resolveGitDir yadmProject = "/projects/yadm-git"
    ∧ resolveGitDir plainProject = "/projects/plain/.git" :=
  ⟨(resolveGitDir_amended yadmProject "/projects/yadm-git").1 rfl (by decide),
    (resolveGitDir_amended plainProject "").2.1 rfl⟩

/-- C9: the classification pass leaves every configuration field of every
group and project — group title and structure, project name, path and
gitDir override — exactly as it was before the pass, for every oracle and
every configuration. -/
theorem config_fields_frame (oracle : IProject → Except String RepoStatus)
    (groups : List IGroup) :
    (runClassificationPass oracle groups).map
        (fun g => (g.title, g.projects.map (fun p => (p.name, p.path, p.gitDir))))
      = groups.map (fun g => (g.title, g.projects.map (fun p => (p.name, p.path, p.gitDir)))) := by
  simp [runClassificationPass, classifyProject, List.map_map, Function.comp]

/-- C10: the classifier returns PathNotFound exactly when the existence
check's stderr contains the literal marker "No such file or directory";
on any other existence-check failure it proceeds to issue the history
probe. -/
theorem pathNotFound_iff_marker (env : ProbeEnv) :
    (getRepoStatus env = RepoStatus.PathNotFound
      ↔ strContains env.existsCheck.stderr "No such file or directory" = true)
    ∧ (strContains env.existsCheck.stderr "No such file or directory" = false →
      Probe.logCheck ∈ getRepoTrace env) := by
  unfold getRepoStatus getRepoTrace getRepoStatusTrace
  split_ifs with h1 h2 h3 h4 h5 h6 h7 h8 h9 <;> simp_all

/-- Witness for C10: a missing path yields PathNotFound; a
permission-denied listing error does not match the marker and the history
probe is issued. -/
theorem pathNotFound_iff_marker_witness :
    getRepoStatus missingPathEnv = RepoStatus.PathNotFound
    ∧ Probe.logCheck ∈ getRepoTrace permissionDeniedEnv :=
  ⟨(pathNotFound_iff_marker missingPathEnv).1.mpr (by decide),
    (pathNotFound_iff_marker permissionDeniedEnv).2 (by decide)⟩

end GitMonitor
